import Mathlib

/-!
Verification development for the skyline batch-size prediction engine
(`src/plugin/lib/stores/batchsize_store.js` and
`src/plugin/lib/stores/innpv_store.js`).

Numbers are embedded as exact rationals.  JavaScript arithmetic on the
throughput-inversion path can produce the special values `Infinity`,
`-Infinity` and `NaN` (division by an exactly-zero denominator), and the
store's clamping code observes them through `<`, `Math.min` and `Math.max`;
the type `JsNum` and the functions `jsLt`, `jsMin` and `jsMax` embed exactly
those IEEE comparison/min/max semantics on otherwise-exact rational values.
-/

namespace Skyline

/-- A JavaScript number that is either an exact (rational) finite value or
one of the special values produced by dividing a finite nonzero numerator or
a zero numerator by zero. -/
inductive JsNum where
  | fin (q : ℚ)
  | posInf
  | negInf
  | nan
deriving DecidableEq, Repr

/-- The JavaScript `<` comparison: any comparison with `NaN` is false,
`-Infinity` is below every other value and `Infinity` above. -/
def jsLt : JsNum → JsNum → Bool
  | .nan, _ => false
  | _, .nan => false
  | .negInf, .negInf => false
  | .negInf, _ => true
  | _, .negInf => false
  | .posInf, _ => false
  | .fin _, .posInf => true
  | .fin a, .fin b => decide (a < b)

/-- JavaScript `Math.min`: propagates `NaN`, otherwise picks the smaller. -/
def jsMin : JsNum → JsNum → JsNum
  | .nan, _ => .nan
  | _, .nan => .nan
  | a, b => if jsLt b a then b else a

/-- JavaScript `Math.max`: propagates `NaN`, otherwise picks the larger. -/
def jsMax : JsNum → JsNum → JsNum
  | .nan, _ => .nan
  | _, .nan => .nan
  | a, b => if jsLt a b then b else a

/-- JavaScript `Math.round` on a finite value: round half away from minus
infinity, i.e. `Math.round(x) = floor(x + 0.5)`. -/
def jsRound (q : ℚ) : ℤ := ⌊q + 1 / 2⌋

/-- An affine performance model `{slope, intercept}` as received from the
analysis producer. -/
structure AffineModel where
  slope : ℚ
  intercept : ℚ
deriving DecidableEq, Repr

/-- Modelled from the spec: `evaluateLinearModel` (defined in
`src/plugin/lib/utils`, which is not under `src/`): evaluation of an affine
model, `value(b) = slope * b + intercept`. -/
def AffineModel.value (m : AffineModel) (b : ℚ) : ℚ := m.slope * b + m.intercept

/-- The memory side of an analysis: usage model (mb as a function of batch
size) and the hardware capacity in mb. -/
structure MemoryInfo where
  usageModelMb : AffineModel
  maxCapacityMb : ℚ
deriving DecidableEq, Repr

/-- The throughput side of an analysis: runtime model (ms per iteration as a
function of batch size), the measured maximum throughput and the configured
throughput limit. -/
structure ThroughputInfo where
  runtimeModelMs : AffineModel
  maxThroughput : ℚ
  throughputLimit : ℚ
deriving DecidableEq, Repr

/-- A position in the source buffer (line/column), only carried along. -/
structure Position where
  line : ℕ
  column : ℕ
deriving DecidableEq, Repr

/-- The input annotation description: its buffer range and the input size
tuple, whose first entry is the batch-size dimension. -/
structure InputInfo where
  annotationStart : Position
  annotationEnd : Position
  inputSize : List ℤ
deriving DecidableEq, Repr

/-- Modelled from the spec: `getBatchSizeFromUsage` (defined in
`src/plugin/lib/utils`, which is not under `src/`): inverts the affine
memory model, `batchSize = (targetUsageMb - intercept) / slope`, with no
rounding.  The spec's contract assumes a strictly positive slope; the
degenerate zero-slope model is the spec's open edge case and this embedding
is faithful only for nonzero slopes. -/
def getBatchSizeFromUsage (m : AffineModel) (targetUsageMb : ℚ) : ℚ :=
  (targetUsageMb - m.intercept) / m.slope

/-- Modelled from the spec: `getBatchSizeFromThroughput` (defined in
`src/plugin/lib/utils`, which is not under `src/`):
`batchSize = intercept * target / (1000 - slope * target)`, embedded with
JavaScript division semantics: a zero denominator yields `Infinity`,
`-Infinity` or `NaN` according to the sign of the numerator. -/
def getBatchSizeFromThroughput (m : AffineModel) (targetThroughput : ℚ) : JsNum :=
  if 1000 - m.slope * targetThroughput = 0 then
    (if 0 < m.intercept * targetThroughput then .posInf
     else if m.intercept * targetThroughput < 0 then .negInf
     else .nan)
  else .fin (m.intercept * targetThroughput / (1000 - m.slope * targetThroughput))

/-- The result of `getThroughputModel`.  Modelled from the spec: the classes
`Throughput.fromInfo` / `Throughput.fromPrediction` live in
`src/plugin/lib/models/Throughput`, which is not under `src/`; they are
represented as a tagged projection recording which constructor is used and
at which predicted batch size the projection is evaluated. -/
inductive ThroughputModelResult where
  | fromInfo (info : ThroughputInfo)
  | fromPrediction (info : ThroughputInfo) (predictedBatchSize : JsNum)
deriving DecidableEq, Repr

/-- The result of `getMemoryModel`.  Modelled from the spec: the classes
`Memory.fromInfo` / `Memory.fromPrediction` live in
`src/plugin/lib/models/Memory`, which is not under `src/`; they are
represented as a tagged projection. -/
inductive MemoryModelResult where
  | fromInfo (info : MemoryInfo)
  | fromPrediction (info : MemoryInfo) (predictedBatchSize : JsNum)
deriving DecidableEq, Repr

/-- The state of the `BatchSizeStore` singleton.  `annotationText` records
the last annotation string written to the buffer (the editor itself is an
external collaborator), and `notifyCount` counts `notifyChanged`
notifications emitted to observers. -/
structure BatchSizeStore where
  throughputInfo : Option ThroughputInfo
  memoryInfo : Option MemoryInfo
  inputInfo : Option InputInfo
  predictedBatchSize : Option JsNum
  maxBatchSize : Option ℚ
  annotationText : Option String
  notifyCount : ℕ
deriving DecidableEq, Repr

/-- The freshly constructed store: all analysis fields null. -/
def BatchSizeStore.init : BatchSizeStore :=
  { throughputInfo := none
    memoryInfo := none
    inputInfo := none
    predictedBatchSize := none
    maxBatchSize := none
    annotationText := none
    notifyCount := 0 }

/-- JavaScript assignment `copy[0] = v` on an array of rendered values:
replaces the head, and on an empty array produces a one-element array. -/
def setFirstJs (l : List String) (v : String) : List String :=
  match l with
  | [] => [v]
  | _ :: t => v :: t

/-- How `Array.prototype.join` renders a (rounded) predicted batch size. -/
def jsNumRoundString : JsNum → String
  | .fin q => toString (jsRound q)
  | .posInf => "Infinity"
  | .negInf => "-Infinity"
  | .nan => "NaN"

/-- `_getAnnotationString` (batchsize_store.js lines 103-110): copies the
input-size tuple, overwrites the first entry with the rounded predicted
batch size when a prediction is active, and joins with a comma and space
inside the literal marker text. -/
def annotationString (ii : InputInfo) (pbs : Option JsNum) : String :=
  "@innpv size (" ++
    String.intercalate ", "
      (match pbs with
       | none => ii.inputSize.map (fun x : ℤ => toString x)
       | some p => setFirstJs (ii.inputSize.map (fun x : ℤ => toString x)) (jsNumRoundString p)) ++
    ")"

/-- `receivedAnalysis` (batchsize_store.js lines 28-48): stores the three
infos, resets the prediction, recomputes the feasible ceiling from the
memory model, and notifies observers.  (The annotation range capture and
undo checkpoint are editor interactions outside this embedding.) -/
def BatchSizeStore.receivedAnalysis (s : BatchSizeStore) (ti : ThroughputInfo)
    (mi : MemoryInfo) (ii : InputInfo) : BatchSizeStore :=
  { s with
    throughputInfo := some ti
    memoryInfo := some mi
    inputInfo := some ii
    predictedBatchSize := none
    maxBatchSize := some (getBatchSizeFromUsage mi.usageModelMb mi.maxCapacityMb)
    notifyCount := s.notifyCount + 1 }

/-- The predicted batch size computed by `updateMemoryUsage` (lines 53-61):
the percentage is mapped to a usage target upper-clamped at capacity, the
memory model is inverted, and the result lower-clamped to 1. -/
def memoryPrediction (m : AffineModel) (cap updatedPct : ℚ) : ℚ :=
  max (getBatchSizeFromUsage m (min (updatedPct / 100 * cap) cap)) 1

/-- `updateMemoryUsage` (batchsize_store.js lines 50-65).  A `none` result
models the JavaScript crash on a null info (adjustments are only specified
after `receivedAnalysis`). -/
def BatchSizeStore.updateMemoryUsage (s : BatchSizeStore) (deltaPct basePct : ℚ) :
    Option BatchSizeStore :=
  match s.memoryInfo, s.inputInfo with
  | some mi, some ii =>
      some { s with
        predictedBatchSize :=
          some (.fin (memoryPrediction mi.usageModelMb mi.maxCapacityMb (basePct + deltaPct)))
        annotationText :=
          some (annotationString ii
            (some (.fin (memoryPrediction mi.usageModelMb mi.maxCapacityMb (basePct + deltaPct)))))
        notifyCount := s.notifyCount + 1 }
  | _, _ => none

/-- The clamped throughput target of `updateThroughput` (lines 70-74):
`Math.max(Math.min(updatedPct / 100 * maxThroughput, throughputLimit), 0)`. -/
def clampedThroughput (ti : ThroughputInfo) (deltaPct basePct : ℚ) : ℚ :=
  max (min ((basePct + deltaPct) / 100 * ti.maxThroughput) ti.throughputLimit) 0

/-- The predicted batch size computed by `updateThroughput` (lines 75-85):
invert the runtime model; a negative inversion is the overflow signal and is
replaced by the feasible ceiling, otherwise the result is clamped into
`[1, maxBatchSize]` with JavaScript `Math.min`/`Math.max`. -/
def throughputPrediction (m : AffineModel) (mb target : ℚ) : JsNum :=
  if jsLt (getBatchSizeFromThroughput m target) (.fin 0) then .fin mb
  else jsMax (jsMin (getBatchSizeFromThroughput m target) (.fin mb)) (.fin 1)

/-- `updateThroughput` (batchsize_store.js lines 67-89). -/
def BatchSizeStore.updateThroughput (s : BatchSizeStore) (deltaPct basePct : ℚ) :
    Option BatchSizeStore :=
  match s.throughputInfo, s.maxBatchSize, s.inputInfo with
  | some ti, some mb, some ii =>
      some { s with
        predictedBatchSize :=
          some (throughputPrediction ti.runtimeModelMs mb (clampedThroughput ti deltaPct basePct))
        annotationText :=
          some (annotationString ii
            (some (throughputPrediction ti.runtimeModelMs mb
              (clampedThroughput ti deltaPct basePct))))
        notifyCount := s.notifyCount + 1 }
  | _, _, _ => none

/-- `clearPredictions` (batchsize_store.js lines 112-116): drops the
prediction, rewrites the annotation from the unmodified input size, and
notifies observers. -/
def BatchSizeStore.clearPredictions (s : BatchSizeStore) : Option BatchSizeStore :=
  match s.inputInfo with
  | some ii =>
      some { s with
        predictedBatchSize := none
        annotationText := some (annotationString ii none)
        notifyCount := s.notifyCount + 1 }
  | none => none

/-- `getThroughputModel` (batchsize_store.js lines 118-128).  The method
body contains no assignment, so its embedding returns the unchanged state
alongside the result. -/
def BatchSizeStore.getThroughputModel (s : BatchSizeStore) :
    Option ThroughputModelResult × BatchSizeStore :=
  (match s.throughputInfo, s.predictedBatchSize with
   | none, _ => none
   | some ti, none => some (.fromInfo ti)
   | some ti, some p => some (.fromPrediction ti p), s)

/-- `getMemoryModel` (batchsize_store.js lines 130-140). -/
def BatchSizeStore.getMemoryModel (s : BatchSizeStore) :
    Option MemoryModelResult × BatchSizeStore :=
  (match s.memoryInfo, s.predictedBatchSize with
   | none, _ => none
   | some mi, none => some (.fromInfo mi)
   | some mi, some p => some (.fromPrediction mi p), s)

/-- `getInputInfo` (batchsize_store.js lines 142-144). -/
def BatchSizeStore.getInputInfo (s : BatchSizeStore) : Option InputInfo := s.inputInfo

/-- One slider-adjustment call on the store. -/
inductive AdjustOp where
  | memory (deltaPct basePct : ℚ)
  | throughput (deltaPct basePct : ℚ)
deriving DecidableEq, Repr

/-- Apply one adjustment call. -/
def applyAdjust (s : BatchSizeStore) : AdjustOp → Option BatchSizeStore
  | .memory d b => s.updateMemoryUsage d b
  | .throughput d b => s.updateThroughput d b

/-- Apply a sequence of adjustment calls, stopping at the first failure. -/
def applyAdjustments (s : BatchSizeStore) : List AdjustOp → Option BatchSizeStore
  | [] => some s
  | op :: rest => (applyAdjust s op).bind (fun s1 => applyAdjustments s1 rest)

/-- The `INNPVStore` state (innpv_store.js): the app state together with the
callbacks currently registered on the `updated` event.  Modelled from the
spec's observer interface: the Node `EventEmitter` (not under `src/`) keeps
an ordered listener list; `emit` synchronously calls each registered
listener once, in order. -/
structure INNPVStore (α κ : Type) where
  appState : α
  listeners : List κ
deriving DecidableEq, Repr

/-- `getAppState` (innpv_store.js lines 16-18). -/
def INNPVStore.getAppState {α κ : Type} (st : INNPVStore α κ) : α := st.appState

/-- `setAppState` (innpv_store.js lines 20-23): stores the state and emits
one `updated` event; the second component is the ordered list of callbacks
the emission synchronously delivers to. -/
def INNPVStore.setAppState {α κ : Type} (st : INNPVStore α κ) (s : α) :
    INNPVStore α κ × List κ :=
  ({ st with appState := s }, st.listeners)

/-- `addListener` (innpv_store.js lines 25-27): `emitter.on` appends. -/
def INNPVStore.addListener {α κ : Type} (st : INNPVStore α κ) (c : κ) : INNPVStore α κ :=
  { st with listeners := st.listeners ++ [c] }

/-- `removeListener` (innpv_store.js lines 29-31): the emitter removes at
most one registration of the callback, searching from the end. -/
def INNPVStore.removeListener {α κ : Type} [DecidableEq κ] (st : INNPVStore α κ) (c : κ) :
    INNPVStore α κ :=
  { st with listeners := (st.listeners.reverse.erase c).reverse }

lemma jsLt_fin_fin (a b : ℚ) : jsLt (.fin a) (.fin b) = decide (a < b) := rfl

lemma jsMin_fin_fin (a b : ℚ) : jsMin (.fin a) (.fin b) = .fin (min a b) := by
  show (if jsLt (.fin b) (.fin a) then JsNum.fin b else .fin a) = .fin (min a b)
  by_cases h : b < a
  · simp [jsLt_fin_fin, h, min_eq_right h.le]
  · simp [jsLt_fin_fin, h, min_eq_left (not_lt.mp h)]

lemma jsMax_fin_fin (a b : ℚ) : jsMax (.fin a) (.fin b) = .fin (max a b) := by
  show (if jsLt (.fin a) (.fin b) then JsNum.fin b else .fin a) = .fin (max a b)
  by_cases h : a < b
  · simp [jsLt_fin_fin, h, max_eq_right h.le]
  · simp [jsLt_fin_fin, h, max_eq_left (not_lt.mp h)]

lemma jsMin_posInf_fin (b : ℚ) : jsMin .posInf (.fin b) = .fin b := rfl

/-- The value computed by the body of `updateThroughput` is always a finite
batch size in `[1, maxBatchSize]` provided the runtime model has positive
slope and intercept and the ceiling admits batch size 1, and a clamped
target at or beyond the asymptote `1000/slope` yields exactly the ceiling. -/
lemma throughputPrediction_spec (m : AffineModel) (mb t : ℚ)
    (hs : 0 < m.slope) (hi : 0 < m.intercept) (hmb : 1 ≤ mb) :
    ∃ q, throughputPrediction m mb t = .fin q ∧ 1 ≤ q ∧ q ≤ mb ∧
      (1000 / m.slope ≤ t → q = mb) := by
  by_cases hden : (1000 : ℚ) - m.slope * t = 0
  · -- the clamped target sits exactly at the asymptote: the division
    -- overflows to Infinity and the min-clamp brings it down to the ceiling
    have hst : m.slope * t = 1000 := by linarith
    have htpos : 0 < t := by
      by_contra h
      push_neg at h
      nlinarith
    have hnum : 0 < m.intercept * t := mul_pos hi htpos
    have hg : getBatchSizeFromThroughput m t = .posInf := by
      unfold getBatchSizeFromThroughput
      rw [if_pos hden, if_pos hnum]
    refine ⟨mb, ?_, hmb, le_refl mb, fun _ => rfl⟩
    unfold throughputPrediction
    rw [hg]
    have h1 : jsLt JsNum.posInf (.fin 0) = false := rfl
    rw [h1]
    simp only [Bool.false_eq_true, if_false]
    rw [jsMin_posInf_fin, jsMax_fin_fin, max_eq_left hmb]
  · have hg : getBatchSizeFromThroughput m t =
        .fin (m.intercept * t / (1000 - m.slope * t)) := by
      unfold getBatchSizeFromThroughput
      rw [if_neg hden]
    by_cases hneg : m.intercept * t / (1000 - m.slope * t) < 0
    · -- overflow signal: a negative inversion is replaced by the ceiling
      refine ⟨mb, ?_, hmb, le_refl mb, fun _ => rfl⟩
      unfold throughputPrediction
      rw [hg, jsLt_fin_fin]
      simp [hneg]
    · push_neg at hneg
      refine ⟨max (min (m.intercept * t / (1000 - m.slope * t)) mb) 1, ?_, le_max_right _ _,
        max_le (min_le_right _ _) hmb, ?_⟩
      · unfold throughputPrediction
        rw [hg, jsLt_fin_fin]
        rw [if_neg (by simp only [decide_eq_true_eq]; exact not_lt.mpr hneg),
          jsMin_fin_fin, jsMax_fin_fin]
      · -- a target at or beyond the asymptote with a nonnegative inversion
        -- is impossible: the denominator is negative and the numerator positive
        intro hasym
        have h1 : 1000 ≤ t * m.slope := (div_le_iff₀ hs).mp hasym
        have hden_le : 1000 - m.slope * t ≤ 0 := by linarith
        have hden_lt : 1000 - m.slope * t < 0 := lt_of_le_of_ne hden_le hden
        have htpos : 0 < t := lt_of_lt_of_le (div_pos (by norm_num) hs) hasym
        have hx : m.intercept * t / (1000 - m.slope * t) < 0 :=
          div_neg_of_pos_of_neg (mul_pos hi htpos) hden_lt
        exact absurd hx (not_lt.mpr hneg)

/-- The spec's concrete runtime model: slope 2 ms, intercept 10 ms,
measured maximum throughput 400, configured limit 450. -/
def tiW : ThroughputInfo :=
  { runtimeModelMs := { slope := 2, intercept := 10 }
    maxThroughput := 400
    throughputLimit := 450 }

/-- The spec's concrete memory model: slope 50 mb, intercept 200 mb,
hardware capacity 8000 mb. -/
def miW : MemoryInfo :=
  { usageModelMb := { slope := 50, intercept := 200 }, maxCapacityMb := 8000 }

/-- A concrete input annotation with batch-size dimension 32. -/
def iiW : InputInfo :=
  { annotationStart := { line := 3, column := 0 }
    annotationEnd := { line := 3, column := 24 }
    inputSize := [32, 3, 224, 224] }

/-- The store right after receiving the spec's concrete analysis. -/
def sW : BatchSizeStore := BatchSizeStore.init.receivedAnalysis tiW miW iiW

/-- What `updateThroughput` does once all three required fields are
populated: a single record update. -/
lemma updateThroughput_eq (s : BatchSizeStore) (ti : ThroughputInfo) (mb : ℚ)
    (ii : InputInfo) (d b : ℚ)
    (hti : s.throughputInfo = some ti) (hmb : s.maxBatchSize = some mb)
    (hii : s.inputInfo = some ii) :
    s.updateThroughput d b = some { s with
      predictedBatchSize :=
        some (throughputPrediction ti.runtimeModelMs mb (clampedThroughput ti d b))
      annotationText :=
        some (annotationString ii
          (some (throughputPrediction ti.runtimeModelMs mb (clampedThroughput ti d b))))
      notifyCount := s.notifyCount + 1 } := by
  unfold BatchSizeStore.updateThroughput
  rw [hti, hmb, hii]

/-- What `updateMemoryUsage` does once both required fields are populated. -/
lemma updateMemoryUsage_eq (s : BatchSizeStore) (mi : MemoryInfo) (ii : InputInfo)
    (d b : ℚ) (hmi : s.memoryInfo = some mi) (hii : s.inputInfo = some ii) :
    s.updateMemoryUsage d b = some { s with
      predictedBatchSize :=
        some (.fin (memoryPrediction mi.usageModelMb mi.maxCapacityMb (b + d)))
      annotationText :=
        some (annotationString ii
          (some (.fin (memoryPrediction mi.usageModelMb mi.maxCapacityMb (b + d)))))
      notifyCount := s.notifyCount + 1 } := by
  unfold BatchSizeStore.updateMemoryUsage
  rw [hmi, hii]

/-- What `clearPredictions` does once the input info is populated. -/
lemma clearPredictions_eq (s : BatchSizeStore) (ii : InputInfo)
    (hii : s.inputInfo = some ii) :
    s.clearPredictions = some { s with
      predictedBatchSize := none
      annotationText := some (annotationString ii none)
      notifyCount := s.notifyCount + 1 } := by
  unfold BatchSizeStore.clearPredictions
  rw [hii]

/-- The ceiling computed from the spec's concrete memory model. -/
lemma sW_maxBatchSize : sW.maxBatchSize = some 156 := by
  show some (getBatchSizeFromUsage miW.usageModelMb miW.maxCapacityMb) = some 156
  unfold getBatchSizeFromUsage
  norm_num [miW]

/-- C1 (amended): after an analysis whose runtime model has strictly
positive slope and strictly positive intercept and whose feasible ceiling
admits batch size 1, every `updateThroughput(deltaPct, basePct)` call yields
a finite predicted batch size in `[1, maxBatchSize]`, and whenever the
clamped target throughput is at or above the asymptote `1000/slope` the
predicted batch size equals exactly `maxBatchSize`. -/
theorem updateThroughput_prediction_in_range (s : BatchSizeStore) (ti : ThroughputInfo)
    (mb : ℚ) (ii : InputInfo) (d b : ℚ)
    (hti : s.throughputInfo = some ti) (hmb : s.maxBatchSize = some mb)
    (hii : s.inputInfo = some ii)
    (hs : 0 < ti.runtimeModelMs.slope) (hi : 0 < ti.runtimeModelMs.intercept)
    (h1 : 1 ≤ mb) :
    ∃ s1 q, s.updateThroughput d b = some s1 ∧
      s1.predictedBatchSize = some (.fin q) ∧ 1 ≤ q ∧ q ≤ mb ∧
      (1000 / ti.runtimeModelMs.slope ≤ clampedThroughput ti d b → q = mb) := by
  obtain ⟨q, hq, hq1, hqmb, hasym⟩ :=
    throughputPrediction_spec ti.runtimeModelMs mb (clampedThroughput ti d b) hs hi h1
  refine ⟨_, q, updateThroughput_eq s ti mb ii d b hti hmb hii, ?_, hq1, hqmb, hasym⟩
  show some (throughputPrediction ti.runtimeModelMs mb (clampedThroughput ti d b)) =
    some (.fin q)
  rw [hq]

/-- C1 witness: the spec's concrete scenario (runtime model slope 2,
intercept 10, maxThroughput 400, limit 450; memory ceiling 156) with
`deltaPct = 0, basePct = 100`. -/
theorem updateThroughput_prediction_in_range_witness :
    ∃ s1 q, sW.updateThroughput 0 100 = some s1 ∧
      s1.predictedBatchSize = some (.fin q) ∧ 1 ≤ q ∧ q ≤ 156 ∧
      (1000 / tiW.runtimeModelMs.slope ≤ clampedThroughput tiW 0 100 → q = 156) :=
  updateThroughput_prediction_in_range sW tiW 156 iiW 0 100 rfl sW_maxBatchSize rfl
    (by norm_num [tiW]) (by norm_num [tiW]) (by norm_num)

/-- Runtime model with zero intercept used by the C1 counterexample. -/
def tiCx1 : ThroughputInfo :=
  { runtimeModelMs := { slope := 2, intercept := 0 }
    maxThroughput := 500
    throughputLimit := 600 }

/-- The store after an analysis with the zero-intercept runtime model and
the spec's concrete memory model (ceiling 156). -/
def sCx1 : BatchSizeStore := BatchSizeStore.init.receivedAnalysis tiCx1 miW iiW

/-- C1 counterexample: with the positive-slope runtime model slope 2,
intercept 0, and a clamped target throughput of 500, exactly at the
asymptote 1000/2, the inversion divides 0 by 0 and yields NaN; the overflow
test NaN < 0 is false, and NaN propagates through the clamps, so the
predicted batch size is NaN — neither in [1, 156] nor the claimed
substitution maxBatchSize = 156. -/
theorem updateThroughput_nan_counterexample :
    0 < tiCx1.runtimeModelMs.slope ∧
    1000 / tiCx1.runtimeModelMs.slope ≤ clampedThroughput tiCx1 0 100 ∧
    sCx1.maxBatchSize = some 156 ∧
    (sCx1.updateThroughput 0 100).map BatchSizeStore.predictedBatchSize =
      some (some .nan) ∧
    some (some JsNum.nan) ≠ some (some (JsNum.fin 156)) := by
  have hclamp : clampedThroughput tiCx1 0 100 = 500 := by
    unfold clampedThroughput
    norm_num [tiCx1, min_def, max_def]
  have hmax : sCx1.maxBatchSize = some 156 := by
    show some (getBatchSizeFromUsage miW.usageModelMb miW.maxCapacityMb) = some 156
    unfold getBatchSizeFromUsage
    norm_num [miW]
  refine ⟨by norm_num [tiCx1], by rw [hclamp]; norm_num [tiCx1], hmax, ?_, by simp⟩
  rw [updateThroughput_eq sCx1 tiCx1
      (getBatchSizeFromUsage miW.usageModelMb miW.maxCapacityMb) iiW 0 100 rfl rfl rfl]
  have hg : getBatchSizeFromThroughput tiCx1.runtimeModelMs
      (clampedThroughput tiCx1 0 100) = .nan := by
    rw [hclamp]
    unfold getBatchSizeFromThroughput
    norm_num [tiCx1]
  have htp : throughputPrediction tiCx1.runtimeModelMs
      (getBatchSizeFromUsage miW.usageModelMb miW.maxCapacityMb)
      (clampedThroughput tiCx1 0 100) = .nan := by
    unfold throughputPrediction
    rw [hg]
    simp [jsLt, jsMin, jsMax]
  show some (some (throughputPrediction tiCx1.runtimeModelMs
    (getBatchSizeFromUsage miW.usageModelMb miW.maxCapacityMb)
    (clampedThroughput tiCx1 0 100))) = some (some .nan)
  rw [htp]

/-- C2 (amended): after an analysis whose usage model has strictly positive
slope, provided the computed ceiling admits batch size 1, every
`updateMemoryUsage(deltaPct, basePct)` call — for arbitrary percentage
inputs, however high or negative — yields a finite predicted batch size in
`[1, maxBatchSize]`, although this path lower-clamps to 1 and never
explicitly clamps against `maxBatchSize`. -/
theorem updateMemoryUsage_prediction_in_range (s : BatchSizeStore) (mi : MemoryInfo)
    (ii : InputInfo) (d b : ℚ)
    (hmi : s.memoryInfo = some mi) (hii : s.inputInfo = some ii)
    (hs : 0 < mi.usageModelMb.slope)
    (hmax : s.maxBatchSize = some (getBatchSizeFromUsage mi.usageModelMb mi.maxCapacityMb))
    (h1 : 1 ≤ getBatchSizeFromUsage mi.usageModelMb mi.maxCapacityMb) :
    ∃ s1, s.updateMemoryUsage d b = some s1 ∧
      s1.maxBatchSize = some (getBatchSizeFromUsage mi.usageModelMb mi.maxCapacityMb) ∧
      ∃ q, s1.predictedBatchSize = some (.fin q) ∧ 1 ≤ q ∧
        q ≤ getBatchSizeFromUsage mi.usageModelMb mi.maxCapacityMb := by
  refine ⟨_, updateMemoryUsage_eq s mi ii d b hmi hii,
    hmax, memoryPrediction mi.usageModelMb mi.maxCapacityMb (b + d), rfl,
    le_max_right _ _, ?_⟩
  unfold memoryPrediction
  refine max_le ?_ h1
  unfold getBatchSizeFromUsage
  exact (div_le_div_iff_of_pos_right hs).mpr (sub_le_sub_right (min_le_right _ _) _)

/-- C2 witness: the concrete memory model (ceiling 156) with
`deltaPct = 0, basePct = 100`. -/
theorem updateMemoryUsage_prediction_in_range_witness :
    ∃ s1, sW.updateMemoryUsage 0 100 = some s1 ∧
      s1.maxBatchSize = some (getBatchSizeFromUsage miW.usageModelMb miW.maxCapacityMb) ∧
      ∃ q, s1.predictedBatchSize = some (.fin q) ∧ 1 ≤ q ∧
        q ≤ getBatchSizeFromUsage miW.usageModelMb miW.maxCapacityMb :=
  updateMemoryUsage_prediction_in_range sW miW iiW 0 100 rfl rfl (by norm_num [miW]) rfl
    (by unfold getBatchSizeFromUsage; norm_num [miW])

/-- Memory model whose capacity is below the model's intercept, so the
computed ceiling is negative. -/
def miCx2 : MemoryInfo :=
  { usageModelMb := { slope := 50, intercept := 200 }, maxCapacityMb := 100 }

/-- The store after an analysis with the tiny-capacity memory model. -/
def sCx2 : BatchSizeStore := BatchSizeStore.init.receivedAnalysis tiW miCx2 iiW

/-- C2 counterexample: a received analysis with positive usage slope 50 and
capacity 100 mb below the intercept 200 mb computes maxBatchSize = -2;
`updateMemoryUsage(0, 100)` then lower-clamps the inversion -2 to 1, and
1 does not lie in [1, maxBatchSize] = [1, -2]. -/
theorem updateMemoryUsage_counterexample :
    0 < miCx2.usageModelMb.slope ∧ 0 < miCx2.maxCapacityMb ∧
    sCx2.maxBatchSize = some (-2) ∧
    (sCx2.updateMemoryUsage 0 100).map BatchSizeStore.predictedBatchSize =
      some (some (.fin 1)) ∧
    ¬ ((1 : ℚ) ≤ -2) := by
  have hmax : sCx2.maxBatchSize = some (-2) := by
    show some (getBatchSizeFromUsage miCx2.usageModelMb miCx2.maxCapacityMb) = some (-2)
    unfold getBatchSizeFromUsage
    norm_num [miCx2]
  refine ⟨by norm_num [miCx2], by norm_num [miCx2], hmax, ?_, by norm_num⟩
  rw [updateMemoryUsage_eq sCx2 miCx2 iiW 0 100 rfl rfl]
  have hpred : memoryPrediction miCx2.usageModelMb miCx2.maxCapacityMb (100 + 0) = 1 := by
    unfold memoryPrediction getBatchSizeFromUsage
    norm_num [miCx2, min_def, max_def]
  show some (some (JsNum.fin
    (memoryPrediction miCx2.usageModelMb miCx2.maxCapacityMb (100 + 0)))) =
    some (some (.fin 1))
  rw [hpred]

/-- C3 (amended): `receivedAnalysis` stores
`maxBatchSize = batchSizeFromUsage(memoryInfo.usageModel, memoryInfo.maxCapacityMb)`
exactly, without flooring; under a nonzero slope this is the batch size
whose projected memory usage equals hardware capacity, and for the spec's
concrete memory model {slope 50, intercept 200}, capacity 8000 it equals
156, with the `deltaPct = 0, basePct = 100` usage adjustment then
predicting exactly 156. -/
theorem receivedAnalysis_maxBatchSize (s : BatchSizeStore) (ti : ThroughputInfo)
    (mi : MemoryInfo) (ii : InputInfo) (hs : mi.usageModelMb.slope ≠ 0) :
    (s.receivedAnalysis ti mi ii).maxBatchSize =
      some (getBatchSizeFromUsage mi.usageModelMb mi.maxCapacityMb) ∧
    mi.usageModelMb.value (getBatchSizeFromUsage mi.usageModelMb mi.maxCapacityMb) =
      mi.maxCapacityMb ∧
    sW.maxBatchSize = some 156 ∧
    (sW.updateMemoryUsage 0 100).map BatchSizeStore.predictedBatchSize =
      some (some (.fin 156)) := by
  refine ⟨rfl, ?_, sW_maxBatchSize, ?_⟩
  · unfold AffineModel.value getBatchSizeFromUsage
    field_simp
  · rw [updateMemoryUsage_eq sW miW iiW 0 100 rfl rfl]
    have hpred : memoryPrediction miW.usageModelMb miW.maxCapacityMb (100 + 0) = 156 := by
      unfold memoryPrediction getBatchSizeFromUsage
      norm_num [miW, min_def, max_def]
    show some (some (JsNum.fin
      (memoryPrediction miW.usageModelMb miW.maxCapacityMb (100 + 0)))) =
      some (some (.fin 156))
    rw [hpred]

/-- C3 witness: the spec's concrete memory model has nonzero slope 50. -/
theorem receivedAnalysis_maxBatchSize_witness :
    (BatchSizeStore.init.receivedAnalysis tiW miW iiW).maxBatchSize =
      some (getBatchSizeFromUsage miW.usageModelMb miW.maxCapacityMb) ∧
    miW.usageModelMb.value (getBatchSizeFromUsage miW.usageModelMb miW.maxCapacityMb) =
      miW.maxCapacityMb ∧
    sW.maxBatchSize = some 156 ∧
    (sW.updateMemoryUsage 0 100).map BatchSizeStore.predictedBatchSize =
      some (some (.fin 156)) :=
  receivedAnalysis_maxBatchSize BatchSizeStore.init tiW miW iiW (by norm_num [miW])

/-- Memory model whose inversion at capacity is the non-integer 156.5. -/
def miCx3 : MemoryInfo :=
  { usageModelMb := { slope := 50, intercept := 200 }, maxCapacityMb := 8025 }

/-- C3 counterexample: with capacity 8025 mb the inversion gives
(8025 - 200) / 50 = 156.5 and `receivedAnalysis` stores it without
flooring: the stored maxBatchSize is 313/2, which differs from its floor
156, so the stored value is not `floor(batchSizeFromUsage(...))`. -/
theorem receivedAnalysis_maxBatchSize_counterexample :
    (BatchSizeStore.init.receivedAnalysis tiW miCx3 iiW).maxBatchSize = some (313 / 2) ∧
    (313 / 2 : ℚ) ≠ ((⌊(313 / 2 : ℚ)⌋ : ℤ) : ℚ) := by
  constructor
  · show some (getBatchSizeFromUsage miCx3.usageModelMb miCx3.maxCapacityMb) = some (313 / 2)
    unfold getBatchSizeFromUsage
    norm_num [miCx3]
  · have hfl : ⌊(313 / 2 : ℚ)⌋ = 156 := by
      rw [show (313 / 2 : ℚ) = 156 + 1 / 2 by norm_num]
      rw [Int.floor_eq_iff]
      constructor <;> norm_num
    rw [hfl]
    norm_num

/-- C4: for every affine memory model with strictly positive slope and every
batch size `b > 0`, the usage inversion round-trips the evaluation:
`batchSizeFromUsage(model, model.value(b)) = b`. -/
theorem batchSizeFromUsage_roundTrip (m : AffineModel) (b : ℚ)
    (hs : 0 < m.slope) (hb : 0 < b) :
    getBatchSizeFromUsage m (m.value b) = b := by
  unfold getBatchSizeFromUsage AffineModel.value
  have h : m.slope ≠ 0 := ne_of_gt hs
  field_simp

/-- C4 witness: model slope 2, intercept 5, batch size 3. -/
theorem batchSizeFromUsage_roundTrip_witness :
    getBatchSizeFromUsage { slope := 2, intercept := 5 }
      (AffineModel.value { slope := 2, intercept := 5 } 3) = 3 :=
  batchSizeFromUsage_roundTrip { slope := 2, intercept := 5 } 3 (by norm_num) (by norm_num)

/-- C5: after an analysis, `clearPredictions` sets the prediction to none,
rewrites the annotation to exactly the original inputSize tuple — every
dimension unmodified, including the batch-size dimension — notifies
observers, and does not discard the stored models or maxBatchSize. -/
theorem clearPredictions_spec (s : BatchSizeStore) (ii : InputInfo)
    (hii : s.inputInfo = some ii) :
    ∃ s1, s.clearPredictions = some s1 ∧
      s1.predictedBatchSize = none ∧
      s1.annotationText = some ("@innpv size (" ++
        String.intercalate ", " (ii.inputSize.map (fun x : ℤ => toString x)) ++ ")") ∧
      s1.throughputInfo = s.throughputInfo ∧
      s1.memoryInfo = s.memoryInfo ∧
      s1.maxBatchSize = s.maxBatchSize ∧
      s1.inputInfo = s.inputInfo ∧
      s1.notifyCount = s.notifyCount + 1 :=
  ⟨_, clearPredictions_eq s ii hii, rfl, rfl, rfl, rfl, rfl, rfl, rfl⟩

/-- C5 witness: the concrete analyzed store. -/
theorem clearPredictions_spec_witness :
    ∃ s1, sW.clearPredictions = some s1 ∧
      s1.predictedBatchSize = none ∧
      s1.annotationText = some ("@innpv size (" ++
        String.intercalate ", " (iiW.inputSize.map (fun x : ℤ => toString x)) ++ ")") ∧
      s1.throughputInfo = sW.throughputInfo ∧
      s1.memoryInfo = sW.memoryInfo ∧
      s1.maxBatchSize = sW.maxBatchSize ∧
      s1.inputInfo = sW.inputInfo ∧
      s1.notifyCount = sW.notifyCount + 1 :=
  clearPredictions_spec sW iiW rfl

/-- C6: `getThroughputModel` and `getMemoryModel` return the state unchanged
(no field is mutated); each returns none when the corresponding info is
absent, a projection built from the raw measured info when no prediction is
active, and a projection evaluated at the predicted batch size otherwise. -/
theorem getModels_pure_projections (s : BatchSizeStore) :
    (s.getThroughputModel.2 = s ∧ s.getMemoryModel.2 = s) ∧
    (s.throughputInfo = none → s.getThroughputModel.1 = none) ∧
    (s.memoryInfo = none → s.getMemoryModel.1 = none) ∧
    (∀ ti, s.throughputInfo = some ti → s.predictedBatchSize = none →
      s.getThroughputModel.1 = some (.fromInfo ti)) ∧
    (∀ ti p, s.throughputInfo = some ti → s.predictedBatchSize = some p →
      s.getThroughputModel.1 = some (.fromPrediction ti p)) ∧
    (∀ mi, s.memoryInfo = some mi → s.predictedBatchSize = none →
      s.getMemoryModel.1 = some (.fromInfo mi)) ∧
    (∀ mi p, s.memoryInfo = some mi → s.predictedBatchSize = some p →
      s.getMemoryModel.1 = some (.fromPrediction mi p)) := by
  refine ⟨⟨rfl, rfl⟩, ?_, ?_, ?_, ?_, ?_, ?_⟩
  · intro h
    unfold BatchSizeStore.getThroughputModel
    rw [h]
  · intro h
    unfold BatchSizeStore.getMemoryModel
    rw [h]
  · intro ti h hp
    unfold BatchSizeStore.getThroughputModel
    rw [h, hp]
  · intro ti p h hp
    unfold BatchSizeStore.getThroughputModel
    rw [h, hp]
  · intro mi h hp
    unfold BatchSizeStore.getMemoryModel
    rw [h, hp]
  · intro mi p h hp
    unfold BatchSizeStore.getMemoryModel
    rw [h, hp]

/-- C6 witness: on the freshly analyzed concrete store the getters build the
raw projection and leave the state unchanged. -/
theorem getModels_pure_projections_witness :
    sW.getThroughputModel.1 = some (.fromInfo tiW) ∧
    sW.getMemoryModel.1 = some (.fromInfo miW) ∧
    sW.getThroughputModel.2 = sW ∧ sW.getMemoryModel.2 = sW :=
  ⟨(getModels_pure_projections sW).2.2.2.1 tiW rfl rfl,
   (getModels_pure_projections sW).2.2.2.2.2.1 miW rfl rfl,
   (getModels_pure_projections sW).1.1,
   (getModels_pure_projections sW).1.2⟩

/-- `updateMemoryUsage` leaves all fields except the prediction, the
annotation text and the notification count untouched. -/
lemma updateMemoryUsage_frame (s : BatchSizeStore) (d b : ℚ) (s1 : BatchSizeStore)
    (h : s.updateMemoryUsage d b = some s1) :
    s1.throughputInfo = s.throughputInfo ∧ s1.memoryInfo = s.memoryInfo ∧
    s1.inputInfo = s.inputInfo ∧ s1.maxBatchSize = s.maxBatchSize := by
  unfold BatchSizeStore.updateMemoryUsage at h
  split at h
  · injection h with h
    subst h
    exact ⟨rfl, rfl, rfl, rfl⟩
  · exact absurd h (by simp)

/-- `updateThroughput` leaves all fields except the prediction, the
annotation text and the notification count untouched. -/
lemma updateThroughput_frame (s : BatchSizeStore) (d b : ℚ) (s2 : BatchSizeStore)
    (h : s.updateThroughput d b = some s2) :
    s2.throughputInfo = s.throughputInfo ∧ s2.memoryInfo = s.memoryInfo ∧
    s2.inputInfo = s.inputInfo ∧ s2.maxBatchSize = s.maxBatchSize := by
  unfold BatchSizeStore.updateThroughput at h
  split at h
  · injection h with h
    subst h
    exact ⟨rfl, rfl, rfl, rfl⟩
  · exact absurd h (by simp)

/-- C7: the adjustment operations mutate only the predicted batch size
among the PredictionState fields: throughputInfo, memoryInfo, inputInfo and
maxBatchSize hold the same values after `updateMemoryUsage` and after
`updateThroughput` as before. -/
theorem adjustments_mutate_only_prediction (s : BatchSizeStore) (d b : ℚ)
    (s1 s2 : BatchSizeStore)
    (h1 : s.updateMemoryUsage d b = some s1)
    (h2 : s.updateThroughput d b = some s2) :
    (s1.throughputInfo = s.throughputInfo ∧ s1.memoryInfo = s.memoryInfo ∧
     s1.inputInfo = s.inputInfo ∧ s1.maxBatchSize = s.maxBatchSize) ∧
    (s2.throughputInfo = s.throughputInfo ∧ s2.memoryInfo = s.memoryInfo ∧
     s2.inputInfo = s.inputInfo ∧ s2.maxBatchSize = s.maxBatchSize) :=
  ⟨updateMemoryUsage_frame s d b s1 h1, updateThroughput_frame s d b s2 h2⟩

/-- The concrete store after `updateMemoryUsage(0, 100)` on `sW`. -/
def sWm : BatchSizeStore := { sW with
  predictedBatchSize :=
    some (.fin (memoryPrediction miW.usageModelMb miW.maxCapacityMb (100 + 0)))
  annotationText :=
    some (annotationString iiW
      (some (.fin (memoryPrediction miW.usageModelMb miW.maxCapacityMb (100 + 0)))))
  notifyCount := sW.notifyCount + 1 }

/-- The concrete store after `updateThroughput(0, 100)` on `sW`. -/
def sWt : BatchSizeStore := { sW with
  predictedBatchSize :=
    some (throughputPrediction tiW.runtimeModelMs
      (getBatchSizeFromUsage miW.usageModelMb miW.maxCapacityMb)
      (clampedThroughput tiW 0 100))
  annotationText :=
    some (annotationString iiW
      (some (throughputPrediction tiW.runtimeModelMs
        (getBatchSizeFromUsage miW.usageModelMb miW.maxCapacityMb)
        (clampedThroughput tiW 0 100))))
  notifyCount := sW.notifyCount + 1 }

/-- C7 witness: the two concrete adjustment calls on the analyzed store. -/
theorem adjustments_mutate_only_prediction_witness :
    (sWm.throughputInfo = sW.throughputInfo ∧ sWm.memoryInfo = sW.memoryInfo ∧
     sWm.inputInfo = sW.inputInfo ∧ sWm.maxBatchSize = sW.maxBatchSize) ∧
    (sWt.throughputInfo = sW.throughputInfo ∧ sWt.memoryInfo = sW.memoryInfo ∧
     sWt.inputInfo = sW.inputInfo ∧ sWt.maxBatchSize = sW.maxBatchSize) :=
  adjustments_mutate_only_prediction sW 0 100 sWm sWt
    (updateMemoryUsage_eq sW miW iiW 0 100 rfl rfl)
    (updateThroughput_eq sW tiW (getBatchSizeFromUsage miW.usageModelMb miW.maxCapacityMb)
      iiW 0 100 rfl rfl rfl)

/-- C8: every annotation string written has exactly the form
`@innpv size (v0, v1, …, vn)`: with no active prediction v0..vn are the
original input dimensions in order; with an active finite prediction v0 is
the predicted batch size rounded to the nearest integer (within 1/2) and
v1..vn are the remaining dimensions unchanged and in their original order,
comma-space separated. -/
theorem annotationString_format (ii : InputInfo) (v : ℤ) (rest : List ℤ) (q : ℚ)
    (h : ii.inputSize = v :: rest) :
    annotationString ii none =
      "@innpv size (" ++
        String.intercalate ", "
          (toString v :: rest.map (fun x : ℤ => toString x)) ++ ")" ∧
    annotationString ii (some (.fin q)) =
      "@innpv size (" ++
        String.intercalate ", "
          (toString (jsRound q) :: rest.map (fun x : ℤ => toString x)) ++ ")" ∧
    |(jsRound q : ℚ) - q| ≤ 1 / 2 := by
  refine ⟨?_, ?_, ?_⟩
  · unfold annotationString
    rw [h]
    rfl
  · unfold annotationString setFirstJs jsNumRoundString
    rw [h]
    rfl
  · unfold jsRound
    rw [abs_le]
    constructor
    · linarith [Int.sub_one_lt_floor (q + 1 / 2)]
    · linarith [Int.floor_le (q + 1 / 2)]

/-- C8 witness: the concrete input tuple with prediction 156. -/
theorem annotationString_format_witness :
    annotationString iiW none =
      "@innpv size (" ++
        String.intercalate ", "
          (toString (32 : ℤ) :: [(3 : ℤ), 224, 224].map (fun x : ℤ => toString x)) ++ ")" ∧
    annotationString iiW (some (.fin 156)) =
      "@innpv size (" ++
        String.intercalate ", "
          (toString (jsRound 156) :: [(3 : ℤ), 224, 224].map (fun x : ℤ => toString x)) ++ ")" ∧
    |(jsRound 156 : ℚ) - 156| ≤ 1 / 2 :=
  annotationString_format iiW 32 [3, 224, 224] 156 rfl

/-- A single adjustment call never changes the stored input info. -/
lemma applyAdjust_frame (s : BatchSizeStore) (op : AdjustOp) (s1 : BatchSizeStore)
    (h : applyAdjust s op = some s1) : s1.inputInfo = s.inputInfo := by
  cases op with
  | memory d b => exact (updateMemoryUsage_frame s d b s1 h).2.2.1
  | throughput d b => exact (updateThroughput_frame s d b s1 h).2.2.1

/-- C9: no sequence of `updateMemoryUsage`/`updateThroughput` calls ever
changes the stored inputInfo: after any such sequence the original input
dimensions are still recoverable, and `getInputInfo` returns them
unchanged. -/
theorem adjustments_preserve_inputInfo (ops : List AdjustOp) :
    ∀ s s1 : BatchSizeStore, applyAdjustments s ops = some s1 →
      s1.inputInfo = s.inputInfo ∧ s1.getInputInfo = s.getInputInfo := by
  induction ops with
  | nil =>
      intro s s1 h
      unfold applyAdjustments at h
      injection h with h
      subst h
      exact ⟨rfl, rfl⟩
  | cons op rest ih =>
      intro s s1 h
      unfold applyAdjustments at h
      obtain ⟨sm, hm, hrest⟩ := Option.bind_eq_some.mp h
      have htail := (ih sm s1 hrest).1
      have hhead := applyAdjust_frame s op sm hm
      exact ⟨htail.trans hhead, htail.trans hhead⟩

/-- C9 witness: one concrete memory adjustment on the analyzed store. -/
theorem adjustments_preserve_inputInfo_witness :
    sWm.inputInfo = sW.inputInfo ∧ sWm.getInputInfo = sW.getInputInfo :=
  adjustments_preserve_inputInfo [AdjustOp.memory 0 100] sW sWm rfl

/-- C10: `setAppState(s)` stores `s` (read back by `getAppState`) and emits
exactly one `updated` notification, synchronously delivered to exactly the
callbacks currently registered — one delivery per registration, in order —
while leaving the listener list unchanged; `addListener` registers one more
occurrence of a callback, and `removeListener` removes one registration of a
present callback. -/
theorem setAppState_spec {α κ : Type} [DecidableEq κ] (st : INNPVStore α κ)
    (s : α) (c : κ) :
    (st.setAppState s).1.getAppState = s ∧
    (st.setAppState s).2 = st.listeners ∧
    (st.setAppState s).1.listeners = st.listeners ∧
    ((st.addListener c).setAppState s).2.count c = st.listeners.count c + 1 ∧
    (c ∈ st.listeners →
      (st.removeListener c).listeners.count c = st.listeners.count c - 1) := by
  refine ⟨rfl, rfl, rfl, ?_, ?_⟩
  · show (st.listeners ++ [c]).count c = st.listeners.count c + 1
    simp
  · intro hc
    show ((st.listeners.reverse.erase c).reverse).count c = st.listeners.count c - 1
    rw [List.count_reverse, List.count_erase_self, List.count_reverse]

/-- C10 witness: a store with one registered callback. -/
theorem setAppState_spec_witness :
    ((INNPVStore.mk 0 [7] : INNPVStore ℕ ℕ).setAppState 5).1.getAppState = 5 ∧
    ((INNPVStore.mk 0 [7] : INNPVStore ℕ ℕ).setAppState 5).2 = [7] ∧
    ((INNPVStore.mk 0 [7] : INNPVStore ℕ ℕ).removeListener 7).listeners.count 7 = 0 :=
  ⟨(setAppState_spec (INNPVStore.mk 0 [7]) 5 7).1,
   (setAppState_spec (INNPVStore.mk 0 [7]) 5 7).2.1,
   by
    rw [(setAppState_spec (INNPVStore.mk 0 [7]) 5 7).2.2.2.2 (by decide)]
    decide⟩

end Skyline
